import Mathlib

/-!
Verification of the Job Satisfaction Prediction API (`src/main.py`).

The service is a single FastAPI endpoint `POST /predict_job_satisfaction`
taking 21 typed query parameters, validating them, assembling a one-row
pandas DataFrame, coercing a fixed set of columns to numeric form (failures
becoming NaN and then 0), stringifying a fixed set of categorical columns,
and finally calling an opaque preprocessor and model.

The embedding below models:
  * the 21-field request (`Request`), with floats modelled as rationals —
    the handler only compares them with 0 and passes them through;
  * a DataFrame cell (`CellValue`) as a string, integer, rational, or NaN;
  * `pandas.to_numeric(·, errors="coerce")` on a scalar (`to_numeric_coerce`),
    with a decimal-literal parser `parseDecimal` for the string case;
  * the normalization pipeline of lines 86-132 of `main.py` (`normalize_record`);
  * the preprocessor and model as opaque fallible oracles (`Artifacts`);
  * the endpoint handler of lines 58-159 (`handler_body`, `outer_except`,
    `run_handler`), instrumented with the list of artifact invocations it
    performs, in order.
-/

set_option autoImplicit false

namespace JobSatAPI

/-- The 21 query parameters of `POST /predict_job_satisfaction`, with the
types FastAPI enforces on them (lines 35-56 of `main.py`).  Python floats are
modelled as rationals: the handler only compares them with 0 and forwards
them. -/
structure Request where
  Gender : String
  MaritalStatus : String
  Dept : String
  EmpType : String
  CommuteMode : String
  EduLevel : String
  JobLevel : String
  Stress : Int
  WorkEnv : Int
  Age : Int
  TeamSize : Int
  haveOT : String
  Workload : Int
  TrainingHoursPerYear : ℚ
  WLB : Int
  SleepHours : ℚ
  Experience : Int
  NumReports : Int
  CommuteDistance : Int
  NumCompanies : Int
  PhysicalActivityHours : ℚ
  deriving DecidableEq, Repr

/-- One cell of the one-row DataFrame: a string, an integer, a float
(modelled as a rational), or NaN (the result of a failed numeric coercion). -/
inductive CellValue where
  | str (s : String)
  | int (n : Int)
  | float (q : ℚ)
  | nan
  deriving DecidableEq, Repr

/-- Is the cell NaN (pandas `isnull`)?  Required string parameters can never
be null, and the embedded floats (rationals) are never NaN, so NaN can only
arise from a failed `to_numeric` coercion. -/
def CellValue.isNan : CellValue → Bool
  | .nan => true
  | _ => false

/-- Is the cell a string? -/
def CellValue.isStr : CellValue → Bool
  | .str _ => true
  | _ => false

/-- Python `str(·)` on a cell, as applied by `astype(str)` (line 132).
In the handler the categorical columns only ever hold strings or integers;
`str` of an int renders in decimal with a leading minus for negatives, the
same as `toString` on `Int`. -/
def CellValue.astype_str : CellValue → CellValue
  | .str s => .str s
  | .int n => .str (toString n)
  | .float q => .str (toString q)
  | .nan => .str "nan"

/-- Is `c` an ASCII decimal digit? -/
def isDigitChar (c : Char) : Bool := 48 ≤ c.toNat && c.toNat ≤ 57

/-- Split a character list into its longest digit run and the rest. -/
def takeDigits : List Char → List Char × List Char
  | [] => ([], [])
  | c :: cs =>
      if isDigitChar c then
        let p := takeDigits cs
        (c :: p.1, p.2)
      else
        ([], c :: cs)

/-- The natural number denoted by a list of decimal digits. -/
def natOfDigits (l : List Char) : Nat :=
  l.foldl (fun a c => 10 * a + (c.toNat - 48)) 0

/-- Consume an optional leading sign, returning the sign and the rest. -/
def parseSign : List Char → Int × List Char
  | '+' :: cs => (1, cs)
  | '-' :: cs => (-1, cs)
  | cs => (1, cs)

/-- Parse an unsigned decimal mantissa: digits, optionally with one decimal
point, requiring at least one digit overall. -/
def parseMantissa (cs : List Char) : Option (ℚ × List Char) :=
  let p := takeDigits cs
  match p.2 with
  | '.' :: r2 =>
      let f := takeDigits r2
      if p.1.isEmpty && f.1.isEmpty then none
      else some ((natOfDigits p.1 : ℚ) + (natOfDigits f.1 : ℚ) / ((10 : ℚ) ^ f.1.length), f.2)
  | _ => if p.1.isEmpty then none else some ((natOfDigits p.1 : ℚ), p.2)

/-- Parse an optional exponent part (`e`/`E`, optional sign, digits). -/
def parseExponent (cs : List Char) : Option (Int × List Char) :=
  match cs with
  | c :: r1 =>
      if c = 'e' ∨ c = 'E' then
        let s := parseSign r1
        let d := takeDigits s.2
        if d.1.isEmpty then none else some (s.1 * (natOfDigits d.1 : Int), d.2)
      else some (0, cs)
  | [] => some (0, [])

/-- `10 ^ e` over the rationals, for an integer exponent. -/
def qpow10 (e : Int) : ℚ :=
  if 0 ≤ e then (10 : ℚ) ^ e.toNat else ((10 : ℚ) ^ (-e).toNat)⁻¹

/-- Models `pandas.to_numeric` on a string scalar: an optional sign, a
decimal mantissa and an optional exponent, consuming the entire string;
any other string fails (yielding NaN under `errors="coerce"`). -/
def parseDecimal (s : String) : Option ℚ :=
  let sg := parseSign s.data
  match parseMantissa sg.2 with
  | none => none
  | some (m, r1) =>
      match parseExponent r1 with
      | none => none
      | some (e, r2) =>
          if r2.isEmpty then some ((sg.1 : ℚ) * m * qpow10 e) else none

/-- Models `pandas.to_numeric(·, errors="coerce")` on one cell: numeric
cells pass through, strings are parsed as decimal literals, and any value
that cannot be coerced becomes NaN. -/
def to_numeric_coerce : CellValue → CellValue
  | .str s =>
      match parseDecimal s with
      | some q => .float q
      | none => .nan
  | .int n => .int n
  | .float q => .float q
  | .nan => .nan

/-- The five accepted `JobLevel` values (line 60 of `main.py`). -/
def valid_job_levels : List String :=
  ["Mid", "Intern/Fresher", "Junior", "Senior", "Lead"]

/-- The columns coerced to numeric form (lines 114-115 of `main.py`). -/
def numeric_columns : List String :=
  ["JobLevel", "Age", "TeamSize", "TrainingHoursPerYear", "SleepHours",
   "Experience", "NumReports", "CommuteDistance", "NumCompanies", "PhysicalActivityHours"]

/-- The columns forced to string form (lines 129-130 of `main.py`).
`Workload` is absent from this list (and from `numeric_columns`). -/
def categorical_columns : List String :=
  ["Gender", "MaritalStatus", "Dept", "EmpType", "CommuteMode", "EduLevel", "WorkEnv",
   "haveOT", "WLB"]

/-- The one-row DataFrame built at lines 86-108 of `main.py`, in column
order, before any coercion. -/
def input_data (r : Request) : List (String × CellValue) :=
  [("Gender", .str r.Gender),
   ("MaritalStatus", .str r.MaritalStatus),
   ("Dept", .str r.Dept),
   ("EmpType", .str r.EmpType),
   ("CommuteMode", .str r.CommuteMode),
   ("EduLevel", .str r.EduLevel),
   ("JobLevel", .str r.JobLevel),
   ("Stress", .int r.Stress),
   ("WorkEnv", .int r.WorkEnv),
   ("Age", .int r.Age),
   ("TeamSize", .int r.TeamSize),
   ("haveOT", .str r.haveOT),
   ("Workload", .int r.Workload),
   ("TrainingHoursPerYear", .float r.TrainingHoursPerYear),
   ("WLB", .int r.WLB),
   ("SleepHours", .float r.SleepHours),
   ("Experience", .int r.Experience),
   ("NumReports", .int r.NumReports),
   ("CommuteDistance", .int r.CommuteDistance),
   ("NumCompanies", .int r.NumCompanies),
   ("PhysicalActivityHours", .float r.PhysicalActivityHours)]

/-- The loop at lines 117-118: apply `to_numeric(·, errors="coerce")` to
every cell of a column listed in `numeric_columns`. -/
def coerce_numeric (df : List (String × CellValue)) : List (String × CellValue) :=
  df.map (fun p => if numeric_columns.contains p.1 then (p.1, to_numeric_coerce p.2) else p)

/-- `input_data.isnull().values.any()` (line 124). -/
def has_nan (df : List (String × CellValue)) : Bool :=
  df.any (fun p => p.2.isNan)

/-- Lines 124-126: if any cell is NaN, `fillna(0)`.  A NaN can only sit in a
column that went through `to_numeric`, whose dtype is floating-point, so the
filled value is the float 0. -/
def fillna_step (df : List (String × CellValue)) : List (String × CellValue) :=
  if has_nan df then
    df.map (fun p => (p.1, if p.2.isNan then CellValue.float 0 else p.2))
  else df

/-- The loop at lines 131-132: `astype(str)` on every categorical column. -/
def stringify_categorical (df : List (String × CellValue)) : List (String × CellValue) :=
  df.map (fun p => if categorical_columns.contains p.1 then (p.1, p.2.astype_str) else p)

/-- The full record normalization of lines 86-132: build the DataFrame,
coerce the numeric columns, fill NaNs with 0, stringify the categorical
columns.  This is exactly the record handed to `preprocessor.transform`. -/
def normalize_record (r : Request) : List (String × CellValue) :=
  stringify_categorical (fillna_step (coerce_numeric (input_data r)))

/-! ### Detail strings of the handler's error responses -/

/-- Detail of the 400 raised at lines 62-63 for an invalid `JobLevel`. -/
def job_level_detail : String :=
  "Invalid JobLevel. Must be one of: Mid, Intern/Fresher, Junior, Senior, Lead."

/-- Detail of the 400 raised at line 67 for `WorkEnv` out of range. -/
def work_env_detail : String := "WorkEnv must be an integer between 1 and 5."

/-- Detail of the 400 raised at line 71 for `Workload` out of range. -/
def workload_detail : String := "Workload must be an integer between 1 and 5."

/-- Detail of the 400 raised at line 75 for `WLB` out of range. -/
def wlb_detail : String := "WLB must be an integer between 1 and 5."

/-- Detail of the 400 raised at line 79 for negative `TrainingHoursPerYear`. -/
def training_hours_detail : String := "TrainingHoursPerYear must be a non-negative number."

/-- Detail of the 400 raised at line 81 for negative `SleepHours`. -/
def sleep_hours_detail : String := "SleepHours must be a non-negative number."

/-- Detail of the 400 raised at line 83 for negative `PhysicalActivityHours`. -/
def physical_activity_detail : String := "PhysicalActivityHours must be a non-negative number."

/-- Detail of the 500 raised at line 142 when `preprocessor.transform` raises
(Thai: "error transforming the data"). -/
def transform_fault_detail : String := "ข้อผิดพลาดในการแปลงข้อมูล"

/-- Detail of the 500 raised at line 152 when `model.predict` raises
(Thai: "error making the prediction"). -/
def predict_fault_detail : String := "ข้อผิดพลาดในการทำนาย"

/-- Detail of the 500 raised at line 159 for any other uncaught exception
(Thai: "internal server error"). -/
def internal_fault_detail : String := "ข้อผิดพลาดภายในเซิร์ฟเวอร์"

/-! ### Validation (lines 59-83) -/

/-- The validation sequence of lines 59-83, in source order: the detail
string of the first failing check, or `none` when every check passes. -/
def validationError (r : Request) : Option String :=
  if r.JobLevel ∉ valid_job_levels then some job_level_detail
  else if ¬ (1 ≤ r.WorkEnv ∧ r.WorkEnv ≤ 5) then some work_env_detail
  else if ¬ (1 ≤ r.Workload ∧ r.Workload ≤ 5) then some workload_detail
  else if ¬ (1 ≤ r.WLB ∧ r.WLB ≤ 5) then some wlb_detail
  else if r.TrainingHoursPerYear < 0 then some training_hours_detail
  else if r.SleepHours < 0 then some sleep_hours_detail
  else if r.PhysicalActivityHours < 0 then some physical_activity_detail
  else none

/-- The §4.1 constraints on a request: `JobLevel` among the five allowed
values, `WorkEnv`/`Workload`/`WLB` in `[1,5]`, and the three hour counts
non-negative.  All other fields are accepted as supplied. -/
abbrev satisfies_constraints (r : Request) : Prop :=
  r.JobLevel ∈ valid_job_levels ∧
  (1 ≤ r.WorkEnv ∧ r.WorkEnv ≤ 5) ∧
  (1 ≤ r.Workload ∧ r.Workload ≤ 5) ∧
  (1 ≤ r.WLB ∧ r.WLB ≤ 5) ∧
  0 ≤ r.TrainingHoursPerYear ∧ 0 ≤ r.SleepHours ∧ 0 ≤ r.PhysicalActivityHours

/-! ### The endpoint handler (lines 58-159) -/

/-- The preprocessor and model artifacts, as opaque fallible oracles:
`transform` maps the normalized record to features of some type `F` or
raises (carrying the Python exception message), and `predict` maps features
to a prediction array (`.tolist()` giving a list) or raises. -/
structure Artifacts (F : Type) where
  transform : List (String × CellValue) → Except String F
  predict : F → Except String (List ℚ)

/-- A record of which artifact operations the handler invoked, in order. -/
inductive ArtifactCall where
  | transformCall
  | predictCall
  deriving DecidableEq, Repr

/-- A Python exception as it propagates to the outer `try` of the handler:
either a FastAPI `HTTPException` (status and detail) or any other exception
(carrying its message). -/
inductive Exn where
  | http (status : Nat) (detail : String)
  | other (msg : String)
  deriving DecidableEq, Repr

/-- The HTTP response produced for the caller: a 200 JSON body, or an error
response with a status code and a `detail` string. -/
inductive Response where
  | success (body : List (String × ℚ))
  | err (status : Nat) (detail : String)
  deriving DecidableEq, Repr

/-- The HTTP status code of a response (FastAPI returns 200 for a plain
`return` of a JSON body). -/
def Response.status : Response → Nat
  | .success _ => 200
  | .err s _ => s

/-- The body of the outer `try` at lines 58-154: validation, normalization,
the guarded `preprocessor.transform` and `model.predict` calls (each
re-raised as a 500 `HTTPException` with a fixed detail), and
`prediction[0]` (an `IndexError` — a non-HTTP exception — when the
prediction list is empty).  Paired with the list of artifact calls made. -/
def handler_body {F : Type} (A : Artifacts F) (r : Request) :
    Except Exn (List (String × ℚ)) × List ArtifactCall :=
  match validationError r with
  | some d => (.error (.http 400 d), [])
  | none =>
      match A.transform (normalize_record r) with
      | .error _ => (.error (.http 500 transform_fault_detail), [.transformCall])
      | .ok feats =>
          match A.predict feats with
          | .error _ => (.error (.http 500 predict_fault_detail), [.transformCall, .predictCall])
          | .ok [] => (.error (.other "list index out of range"), [.transformCall, .predictCall])
          | .ok (p :: _) =>
              (.ok [("predicted_job_satisfaction", p)], [.transformCall, .predictCall])

/-- The outer `except` clauses at lines 155-159: an `HTTPException` is
re-raised unchanged (FastAPI renders its status and detail), and any other
exception becomes a 500 with the fixed generic detail, its message
discarded. -/
def outer_except : Except Exn (List (String × ℚ)) → Response
  | .ok body => .success body
  | .error (.http s d) => .err s d
  | .error (.other _) => .err 500 internal_fault_detail

/-- One full run of the `POST /predict_job_satisfaction` handler: the
response sent to the caller, paired with the artifact calls performed. -/
def run_handler {F : Type} (A : Artifacts F) (r : Request) : Response × List ArtifactCall :=
  (outer_except (handler_body A r).1, (handler_body A r).2)

/-- The response of the endpoint, ignoring the instrumentation. -/
def predict_job_satisfaction {F : Type} (A : Artifacts F) (r : Request) : Response :=
  (run_handler A r).1

/-! ### Artifact paths (lines 15-17) -/

/-- Line 16 of `main.py`: the model artifact path. -/
def model_path : String := "D:/COE64-335/Final Pro/FastAPI/best_random_forest_model.pkl"

/-- Line 17 of `main.py`: the preprocessor artifact path. -/
def preprocessor_path : String := "D:/COE64-335/Final Pro/FastAPI/preprocessor.pkl"

/-- The artifact paths the startup code consults, as a function of the
process environment (name-value pairs).  The source assigns the two string
literals above and reads no environment variable and no configuration file,
so the result ignores `env` entirely. -/
def artifact_paths (_env : List (String × String)) : String × String :=
  (model_path, preprocessor_path)

/-! ### Substring predicate for "the detail names the field" -/

/-- Is the first list a prefix of the second? -/
def listIsPrefixOf : List Char → List Char → Bool
  | [], _ => true
  | _ :: _, [] => false
  | a :: as, b :: bs => a == b && listIsPrefixOf as bs

/-- Does `needle` occur as a contiguous run inside `hay`? -/
def listHasInfix : List Char → List Char → Bool
  | needle, [] => listIsPrefixOf needle []
  | needle, b :: bs => listIsPrefixOf needle (b :: bs) || listHasInfix needle bs

/-- Does the detail string mention the given field name as a substring? -/
def mentions (detail field : String) : Bool :=
  listHasInfix field.data detail.data

/-! ### Concrete requests and artifacts used by witnesses -/

/-- The well-formed request of the spec's §8 scenario: `JobLevel=Senior`,
`WorkEnv=3`, `Workload=4`, `WLB=2`, non-negative hours, all other fields
well-formed strings and integers. -/
def req0 : Request where
  Gender := "Male"
  MaritalStatus := "Single"
  Dept := "HR"
  EmpType := "Full-Time"
  CommuteMode := "Car"
  EduLevel := "Bachelor"
  JobLevel := "Senior"
  Stress := 1
  WorkEnv := 3
  Age := 30
  TeamSize := 5
  haveOT := "Yes"
  Workload := 4
  TrainingHoursPerYear := 12
  WLB := 2
  SleepHours := 7
  Experience := 5
  NumReports := 1
  CommuteDistance := 10
  NumCompanies := 2
  PhysicalActivityHours := 2

/-- Artifacts that always succeed, predicting the single value 3. -/
def A_ok : Artifacts Unit where
  transform := fun _ => .ok ()
  predict := fun _ => .ok [3]

/-- Artifacts whose transform raises with message "boom". -/
def A_transform_fails : Artifacts Unit where
  transform := fun _ => .error "boom"
  predict := fun _ => .ok [3]

/-- Artifacts whose predict raises with message "crash". -/
def A_predict_fails : Artifacts Unit where
  transform := fun _ => .ok ()
  predict := fun _ => .error "crash"

/-- `req0` with `JobLevel` set to a value outside the allowed set. -/
def req_c5 : Request := { req0 with JobLevel := "Manager" }

/-- `req0` with `WorkEnv` out of range. -/
def req_we : Request := { req0 with WorkEnv := 6 }

/-- `req0` with a negative `SleepHours`. -/
def req_sh : Request := { req0 with SleepHours := -1 }

/-- `req0` with both an invalid `JobLevel` and `WorkEnv` out of range. -/
def req_c6 : Request := { req0 with JobLevel := "Manager", WorkEnv := 6 }

/-- `req0` with both `WorkEnv` out of range and a negative `SleepHours`. -/
def req_c7 : Request := { req0 with WorkEnv := 6, SleepHours := -1 }

/-! ### Helper lemmas -/

/-- A request meeting the §4.1 constraints passes every validation check. -/
lemma valid_of_satisfies (r : Request) (h : satisfies_constraints r) :
    validationError r = none := by
  obtain ⟨h1, h2, h3, h4, h5, h6, h7⟩ := h
  simp [validationError, h1, h2.1, h2.2, h3.1, h3.2, h4.1, h4.2,
    not_lt.mpr h5, not_lt.mpr h6, not_lt.mpr h7]

/-- Once validation passes, the handler's first action is the transform
call, and whatever the artifacts do the response is never a 400. -/
lemma proceeds_of_valid {F : Type} (A : Artifacts F) (r : Request)
    (h : validationError r = none) :
    (run_handler A r).2.head? = some ArtifactCall.transformCall ∧
    (run_handler A r).1.status ≠ 400 := by
  unfold run_handler handler_body
  rw [h]
  cases htr : A.transform (normalize_record r) with
  | error m => simp [htr, outer_except, Response.status]
  | ok f =>
    cases hpd : A.predict f with
    | error m => simp [htr, hpd, outer_except, Response.status]
    | ok preds =>
      cases preds with
      | nil => simp [htr, hpd, outer_except, Response.status]
      | cons p ps => simp [htr, hpd, outer_except, Response.status]

/-! ### Claim theorems -/

/-- Claim C1: for every request whose 21 fields satisfy the §4.1
constraints, if the preprocessor's transform succeeds and the model's
predict succeeds (producing a prediction with a first element `p`), the
endpoint returns status 200 with a body holding the single scalar field
`predicted_job_satisfaction` equal to `p`, having called transform and then
predict. -/
theorem c1_valid_request_returns_prediction {F : Type} (A : Artifacts F) (r : Request)
    (f : F) (p : ℚ) (rest : List ℚ)
    (h : satisfies_constraints r)
    (ht : A.transform (normalize_record r) = .ok f)
    (hp : A.predict f = .ok (p :: rest)) :
    run_handler A r =
      (Response.success [("predicted_job_satisfaction", p)],
       [ArtifactCall.transformCall, ArtifactCall.predictCall]) ∧
    (run_handler A r).1.status = 200 := by
  have hv := valid_of_satisfies r h
  unfold run_handler handler_body
  rw [hv]
  simp [ht, hp, outer_except, Response.status]

/-- Witness for C1: the spec's §8 scenario request with artifacts that
succeed and predict the single value 3. -/
theorem c1_witness :
    run_handler A_ok req0 =
      (Response.success [("predicted_job_satisfaction", 3)],
       [ArtifactCall.transformCall, ArtifactCall.predictCall]) :=
  (c1_valid_request_returns_prediction A_ok req0 () 3 [] (by decide) rfl rfl).1

/-- Counterexample to C2 as stated: on the valid request `req0` (with
`Workload = 4`), the record delivered to the preprocessor holds `Workload`
as the integer 4, not as a string — while `WorkEnv` and `WLB` are strings.
`Workload` is in neither `numeric_columns` nor `categorical_columns`
(lines 114-115 and 129-130 of `main.py`), so it is never stringified. -/
theorem c2_counterexample :
    (List.lookup "Workload" (normalize_record req0)).map CellValue.isStr = some false ∧
    (List.lookup "WorkEnv" (normalize_record req0)).map CellValue.isStr = some true ∧
    (List.lookup "WLB" (normalize_record req0)).map CellValue.isStr = some true ∧
    List.lookup "Workload" (normalize_record req0) = some (CellValue.int 4) := by
  decide

/-- Claim C2 (amended): during record normalization `WorkEnv` and `WLB` are
converted to string form before being passed to the preprocessor, but
`Workload` is not — it is in neither column list and is delivered unchanged
as the validated integer. -/
theorem c2_workload_not_stringified (r : Request) :
    List.lookup "WorkEnv" (normalize_record r) = some (CellValue.str (toString r.WorkEnv)) ∧
    List.lookup "WLB" (normalize_record r) = some (CellValue.str (toString r.WLB)) ∧
    List.lookup "Workload" (normalize_record r) = some (CellValue.int r.Workload) := by
  obtain ⟨g, ms, dp, et, cm, el, jl, st, we, ag, ts, ot, wl, th, wlb, sh, ex, nr, cd, nc, pa⟩ := r
  refine ⟨?_, ?_, ?_⟩ <;>
  · simp only [normalize_record, fillna_step]
    split <;> rfl

set_option maxHeartbeats 1600000 in
/-- Claim C3: for every request satisfying the §4.1 constraints, any value
of one of the ten numeric-coercion columns whose coercion fails (yields
NaN) is replaced by 0 in the normalized record, and the request proceeds to
inference — the first artifact action is the transform call and the
response is never a 400. -/
theorem c3_failed_coercion_becomes_zero {F : Type} (A : Artifacts F) (r : Request)
    (h : satisfies_constraints r)
    (c : String) (v : CellValue) (hc : c ∈ numeric_columns)
    (hv : List.lookup c (input_data r) = some v)
    (hfail : to_numeric_coerce v = CellValue.nan) :
    List.lookup c (normalize_record r) = some (CellValue.float 0) ∧
    (run_handler A r).2.head? = some ArtifactCall.transformCall ∧
    (run_handler A r).1.status ≠ 400 := by
  have hval := valid_of_satisfies r h
  have hpr := proceeds_of_valid A r hval
  refine ⟨?_, hpr.1, hpr.2⟩
  obtain ⟨g, ms, dp, et, cm, el, jl, st, we, ag, ts, ot, wl, th, wlb, sh, ex, nr, cd, nc, pa⟩ := r
  obtain ⟨hjl, -⟩ := h
  simp only [valid_job_levels, List.mem_cons, List.not_mem_nil, or_false] at hjl
  simp only [numeric_columns, List.mem_cons, List.not_mem_nil, or_false] at hc
  rcases hc with rfl | rfl | rfl | rfl | rfl | rfl | rfl | rfl | rfl | rfl
  · rcases hjl with rfl | rfl | rfl | rfl | rfl <;> rfl
  · have h2 : some (CellValue.int ag) = some v := hv
    injection h2 with h3
    subst h3
    simp [to_numeric_coerce] at hfail
  · have h2 : some (CellValue.int ts) = some v := hv
    injection h2 with h3
    subst h3
    simp [to_numeric_coerce] at hfail
  · have h2 : some (CellValue.float th) = some v := hv
    injection h2 with h3
    subst h3
    simp [to_numeric_coerce] at hfail
  · have h2 : some (CellValue.float sh) = some v := hv
    injection h2 with h3
    subst h3
    simp [to_numeric_coerce] at hfail
  · have h2 : some (CellValue.int ex) = some v := hv
    injection h2 with h3
    subst h3
    simp [to_numeric_coerce] at hfail
  · have h2 : some (CellValue.int nr) = some v := hv
    injection h2 with h3
    subst h3
    simp [to_numeric_coerce] at hfail
  · have h2 : some (CellValue.int cd) = some v := hv
    injection h2 with h3
    subst h3
    simp [to_numeric_coerce] at hfail
  · have h2 : some (CellValue.int nc) = some v := hv
    injection h2 with h3
    subst h3
    simp [to_numeric_coerce] at hfail
  · have h2 : some (CellValue.float pa) = some v := hv
    injection h2 with h3
    subst h3
    simp [to_numeric_coerce] at hfail

/-- Witness for C3: on `req0` the `JobLevel` value "Senior" fails numeric
coercion, ends up as 0 in the normalized record, and the request reaches
the transform call. -/
theorem c3_witness :
    List.lookup "JobLevel" (normalize_record req0) = some (CellValue.float 0) ∧
    (run_handler A_ok req0).2.head? = some ArtifactCall.transformCall ∧
    (run_handler A_ok req0).1.status ≠ 400 :=
  c3_failed_coercion_becomes_zero A_ok req0 (by decide) "JobLevel"
    (CellValue.str "Senior") (by decide) (by decide) (by decide)

/-- Claim C4 (implicit): for every request satisfying the §4.1 constraints,
the `JobLevel` column delivered to the preprocessor equals numeric 0 — each
of the five accepted values is a non-numeric string, so `to_numeric`
coercion yields NaN, which `fillna(0)` replaces with 0. -/
theorem c4_joblevel_reaches_preprocessor_as_zero (r : Request)
    (h : satisfies_constraints r) :
    List.lookup "JobLevel" (normalize_record r) = some (CellValue.float 0) := by
  obtain ⟨g, ms, dp, et, cm, el, jl, st, we, ag, ts, ot, wl, th, wlb, sh, ex, nr, cd, nc, pa⟩ := r
  obtain ⟨hjl, -⟩ := h
  simp only [valid_job_levels, List.mem_cons, List.not_mem_nil, or_false] at hjl
  rcases hjl with rfl | rfl | rfl | rfl | rfl <;> rfl

/-- Witness for C4: the validated request `req0` (`JobLevel = "Senior"`)
hands the preprocessor a `JobLevel` of 0. -/
theorem c4_witness :
    List.lookup "JobLevel" (normalize_record req0) = some (CellValue.float 0) :=
  c4_joblevel_reaches_preprocessor_as_zero req0 (by decide)

/-- Claim C5: for every request with `JobLevel` outside the five allowed
values, the endpoint returns 400 with a detail naming `JobLevel`, and
neither the preprocessor nor the model is invoked (the artifact-call trace
is empty), whatever the artifacts are. -/
theorem c5_invalid_joblevel_rejected {F : Type} (A : Artifacts F) (r : Request)
    (h : r.JobLevel ∉ valid_job_levels) :
    run_handler A r = (Response.err 400 job_level_detail, []) ∧
    mentions job_level_detail "JobLevel" = true := by
  refine ⟨?_, by decide⟩
  unfold run_handler handler_body validationError
  simp [h, outer_except]

/-- Witness for C5: `JobLevel = "Manager"` yields the 400 naming JobLevel
with no artifact call. -/
theorem c5_witness :
    run_handler A_ok req_c5 = (Response.err 400 job_level_detail, []) ∧
    mentions job_level_detail "JobLevel" = true :=
  c5_invalid_joblevel_rejected A_ok req_c5 (by decide)

/-- Counterexample to C6 as stated: on `req_c6`, `WorkEnv = 6` is outside
`[1,5]`, yet the 400 detail is the JobLevel message (the invalid `JobLevel`
check fires first) and does not name `WorkEnv`. -/
theorem c6_counterexample :
    ¬ (1 ≤ req_c6.WorkEnv ∧ req_c6.WorkEnv ≤ 5) ∧
    run_handler A_ok req_c6 = (Response.err 400 job_level_detail, []) ∧
    mentions job_level_detail "WorkEnv" = false := by
  decide

/-- Claim C6 (amended): for every request whose `JobLevel` is valid, if
`WorkEnv`, `Workload`, or `WLB` is outside `[1,5]`, the endpoint returns
400 with a detail naming the first offending field in the checking order
WorkEnv, Workload, WLB, with no artifact invoked. -/
theorem c6_range_fields_rejected {F : Type} (A : Artifacts F) (r : Request)
    (hjl : r.JobLevel ∈ valid_job_levels) :
    (¬ (1 ≤ r.WorkEnv ∧ r.WorkEnv ≤ 5) →
        run_handler A r = (Response.err 400 work_env_detail, []) ∧
        mentions work_env_detail "WorkEnv" = true) ∧
    ((1 ≤ r.WorkEnv ∧ r.WorkEnv ≤ 5) → ¬ (1 ≤ r.Workload ∧ r.Workload ≤ 5) →
        run_handler A r = (Response.err 400 workload_detail, []) ∧
        mentions workload_detail "Workload" = true) ∧
    ((1 ≤ r.WorkEnv ∧ r.WorkEnv ≤ 5) → (1 ≤ r.Workload ∧ r.Workload ≤ 5) →
        ¬ (1 ≤ r.WLB ∧ r.WLB ≤ 5) →
        run_handler A r = (Response.err 400 wlb_detail, []) ∧
        mentions wlb_detail "WLB" = true) := by
  refine ⟨fun h1 => ⟨?_, by decide⟩, fun h1 h2 => ⟨?_, by decide⟩,
    fun h1 h2 h3 => ⟨?_, by decide⟩⟩
  · unfold run_handler handler_body validationError
    simp [hjl, h1, outer_except]
  · unfold run_handler handler_body validationError
    simp [hjl, h1, h2, outer_except]
  · unfold run_handler handler_body validationError
    simp [hjl, h1, h2, h3, outer_except]

/-- Witness for C6 (amended): `WorkEnv = 6` with a valid `JobLevel` yields
the 400 naming WorkEnv. -/
theorem c6_witness :
    run_handler A_ok req_we = (Response.err 400 work_env_detail, []) ∧
    mentions work_env_detail "WorkEnv" = true :=
  (c6_range_fields_rejected A_ok req_we (by decide)).1 (by decide)

/-- Counterexample to C7 as stated: on `req_c7`, `SleepHours = -1` is
negative, yet the 400 detail is the WorkEnv message (the range check on
`WorkEnv = 6` fires first) and does not name `SleepHours`. -/
theorem c7_counterexample :
    req_c7.SleepHours < 0 ∧
    run_handler A_ok req_c7 = (Response.err 400 work_env_detail, []) ∧
    mentions work_env_detail "SleepHours" = false := by
  decide

/-- Claim C7 (amended): for every request whose `JobLevel` is valid and
whose `WorkEnv`, `Workload`, `WLB` are in `[1,5]`, if
`TrainingHoursPerYear`, `SleepHours`, or `PhysicalActivityHours` is
negative, the endpoint returns 400 with a detail naming the first offending
field in the checking order TrainingHoursPerYear, SleepHours,
PhysicalActivityHours, with no artifact invoked. -/
theorem c7_negative_hours_rejected {F : Type} (A : Artifacts F) (r : Request)
    (hjl : r.JobLevel ∈ valid_job_levels)
    (hwe : 1 ≤ r.WorkEnv ∧ r.WorkEnv ≤ 5)
    (hwl : 1 ≤ r.Workload ∧ r.Workload ≤ 5)
    (hwlb : 1 ≤ r.WLB ∧ r.WLB ≤ 5) :
    (r.TrainingHoursPerYear < 0 →
        run_handler A r = (Response.err 400 training_hours_detail, []) ∧
        mentions training_hours_detail "TrainingHoursPerYear" = true) ∧
    (0 ≤ r.TrainingHoursPerYear → r.SleepHours < 0 →
        run_handler A r = (Response.err 400 sleep_hours_detail, []) ∧
        mentions sleep_hours_detail "SleepHours" = true) ∧
    (0 ≤ r.TrainingHoursPerYear → 0 ≤ r.SleepHours → r.PhysicalActivityHours < 0 →
        run_handler A r = (Response.err 400 physical_activity_detail, []) ∧
        mentions physical_activity_detail "PhysicalActivityHours" = true) := by
  refine ⟨fun h1 => ⟨?_, by decide⟩, fun h1 h2 => ⟨?_, by decide⟩,
    fun h1 h2 h3 => ⟨?_, by decide⟩⟩
  · unfold run_handler handler_body validationError
    simp [hjl, hwe, hwl, hwlb, h1, outer_except]
  · unfold run_handler handler_body validationError
    simp [hjl, hwe, hwl, hwlb, not_lt.mpr h1, h2, outer_except]
  · unfold run_handler handler_body validationError
    simp [hjl, hwe, hwl, hwlb, not_lt.mpr h1, not_lt.mpr h2, h3, outer_except]

/-- Witness for C7 (amended): `SleepHours = -1` with the earlier checks
passing yields the 400 naming SleepHours. -/
theorem c7_witness :
    run_handler A_ok req_sh = (Response.err 400 sleep_hours_detail, []) ∧
    mentions sleep_hours_detail "SleepHours" = true :=
  ((c7_negative_hours_rejected A_ok req_sh (by decide) (by decide) (by decide)
    (by decide)).2).1 (by decide) (by decide)

/-- Claim C8: no transform or predict call occurs unless every validation
check has passed (a nonempty artifact trace implies validation succeeded),
and a validation failure is reported as a 400 with the artifact trace
empty. -/
theorem c8_no_artifact_call_before_validation {F : Type} (A : Artifacts F) (r : Request) :
    ((run_handler A r).2 ≠ [] → validationError r = none) ∧
    (∀ d, validationError r = some d → run_handler A r = (Response.err 400 d, [])) := by
  constructor
  · intro hne
    cases hv : validationError r with
    | none => rfl
    | some d =>
      exfalso
      apply hne
      unfold run_handler handler_body
      rw [hv]
  · intro d hv
    unfold run_handler handler_body
    rw [hv]
    rfl

/-- Witness for C8: the invalid request `req_c5` gets its 400 with an
empty artifact trace. -/
theorem c8_witness :
    run_handler A_ok req_c5 = (Response.err 400 job_level_detail, []) :=
  (c8_no_artifact_call_before_validation A_ok req_c5).2 job_level_detail (by decide)

/-- Claim C9: for every validated request, a raising transform yields a 500
with the fixed transform-fault detail, a raising predict yields a 500 with
the fixed predict-fault detail, and any other non-HTTP exception reaching
the outer handler yields a 500 with the fixed generic detail — in each case
the response is a constant independent of the exception message `m`, so the
original message never appears in it. -/
theorem c9_artifact_faults_mapped_to_500 {F : Type} (A : Artifacts F) (r : Request)
    (m : String) (h : validationError r = none) :
    (A.transform (normalize_record r) = .error m →
      run_handler A r =
        (Response.err 500 transform_fault_detail, [ArtifactCall.transformCall])) ∧
    (∀ f, A.transform (normalize_record r) = .ok f → A.predict f = .error m →
      run_handler A r =
        (Response.err 500 predict_fault_detail,
         [ArtifactCall.transformCall, ArtifactCall.predictCall])) ∧
    outer_except (.error (.other m)) = Response.err 500 internal_fault_detail := by
  refine ⟨?_, ?_, rfl⟩
  · intro ht
    unfold run_handler handler_body
    rw [h]
    simp [ht, outer_except]
  · intro f ht hp
    unfold run_handler handler_body
    rw [h]
    simp [ht, hp, outer_except]

/-- Witness for C9: on the valid request `req0`, artifacts whose transform
raises "boom" produce the fixed transform-fault 500. -/
theorem c9_witness :
    run_handler A_transform_fails req0 =
      (Response.err 500 transform_fault_detail, [ArtifactCall.transformCall]) :=
  (c9_artifact_faults_mapped_to_500 A_transform_fails req0 "boom" (by decide)).1 rfl

/-- Claim C10 fails on the code: the artifact paths consulted at startup
are the hard-coded literals of lines 16-17 of `main.py`, identical under
any process environment — no environment variable or configuration file is
read. -/
theorem c10_artifact_paths_hard_coded :
    artifact_paths [("MODEL_PATH", "/opt/artifacts/model.pkl")] = artifact_paths [] ∧
    (artifact_paths []).1 = "D:/COE64-335/Final Pro/FastAPI/best_random_forest_model.pkl" ∧
    (artifact_paths []).2 = "D:/COE64-335/Final Pro/FastAPI/preprocessor.pkl" :=
  ⟨rfl, rfl, rfl⟩

end JobSatAPI
